import Mathlib

/-!
Verification development for the Upbit trading bot's Strategy Execution
Engine (`src/server/upbit.ts`, `src/server/storage.ts`).

Prices, balances and thresholds are modelled as rationals (the source uses
JS numbers); times are integer milliseconds.  External effects (HTTP calls,
database writes, console output) are modelled by explicit inputs (fetched
price, candle list, balances, order success) and explicit outputs (orders
attempted, trade-log records, persisted state delta).
-/

namespace UpbitBot

/-- Order side, `"bid"` (buy) or `"ask"` (sell) in the source. -/
inductive Side
  | bid
  | ask
  deriving DecidableEq, Repr

/-- A buy/sell/hold signal, as produced by the backtest simulator's
per-candle `switch` in `runBacktest`. -/
inductive Action
  | buy
  | sell
  | hold
  deriving DecidableEq, Repr

/-- `CandleData` from `upbit.ts` (volume omitted; no strategy reads it). -/
structure Candle where
  timestamp : ℤ := 0
  open_ : ℚ := 0
  high : ℚ := 0
  low : ℚ := 0
  close : ℚ
  deriving DecidableEq, Repr

/-- The strategy-relevant fields of a `BotSettings` row.  String columns
that `parseFloat` turns into numbers are modelled as `Option ℚ` (`none` =
NULL / missing, defaulted exactly where the source defaults them).
`hasApiKeys` models the `!settings.upbitAccessKey || !settings.upbitSecretKey`
early-return guard; the key material itself plays no algorithmic role. -/
structure BotSettings where
  hasApiKeys : Bool := true
  buyThreshold : Option ℚ := none
  sellThreshold : Option ℚ := none
  targetAmount : Option ℚ := none
  feeRate : Option ℚ := none
  referencePrice : Option ℚ := none
  lastTradeTime : Option ℤ := none
  deriving DecidableEq, Repr

/-- `settings.lastTradeTime ? new Date(settings.lastTradeTime).getTime() : 0` -/
def lastTradeTimeMs (s : BotSettings) : ℤ :=
  s.lastTradeTime.getD 0

/-- Fields written back through `updateBotSettings` by one executor call;
`none` means the field was not written. -/
structure StateDelta where
  referencePrice : Option ℚ := none
  lastTradeTime : Option ℤ := none
  deriving DecidableEq, Repr

/-- Two sequential `updateBotSettings` calls: the later write wins per field. -/
def StateDelta.merge (d1 d2 : StateDelta) : StateDelta where
  referencePrice := match d2.referencePrice with
    | some v => some v
    | none => d1.referencePrice
  lastTradeTime := match d2.lastTradeTime with
    | some v => some v
    | none => d1.lastTradeTime

/-- Persist a delta into a settings row. -/
def applyDelta (s : BotSettings) (d : StateDelta) : BotSettings :=
  { s with
    referencePrice := match d.referencePrice with
      | some v => some v
      | none => s.referencePrice
    lastTradeTime := match d.lastTradeTime with
      | some v => some v
      | none => s.lastTradeTime }

/-- One order attempt sent to the exchange (`placeBuyOrder`/`placeSellOrder`):
for a bid, `size` is the KRW amount; for an ask, the coin volume.  `time` is
the `Date.now()` of the executor call and `success` the exchange outcome. -/
structure TradeRec where
  side : Side
  size : ℚ
  time : ℤ
  success : Bool
  deriving DecidableEq, Repr

/-- A `createTradeLog` write (market/message strings elided). -/
structure LogRecord where
  side : Side
  price : ℚ
  volume : ℚ
  status : String
  deriving DecidableEq, Repr

/-- Everything one executor call does: orders attempted, log rows written,
and the settings fields persisted.  An untouched cycle is `{}`. -/
structure ExecResult where
  trades : List TradeRec := []
  logs : List LogRecord := []
  delta : StateDelta := {}
  deriving DecidableEq, Repr

def statusOf (success : Bool) : String :=
  if success then "success" else "failed"

/- ## Indicator library -/

/-- Last `n` elements of a list (`slice(-n)`). -/
def lastN {α : Type} (l : List α) (n : ℕ) : List α :=
  l.drop (l.length - n)

/-- Consecutive differences of a list. -/
def consecutiveDeltas : List ℚ → List ℚ
  | [] => []
  | [_] => []
  | a :: b :: rest => (b - a) :: consecutiveDeltas (b :: rest)

/-- The `period` price changes examined by `calculateRSI`: the loop
`for i = len - period; i < len` over `prices[i] - prices[i-1]` reads the
consecutive deltas of the last `period + 1` prices. -/
def rsiDeltas (prices : List ℚ) (period : ℕ) : List ℚ :=
  consecutiveDeltas (lastN prices (period + 1))

/-- Summed positive changes (`gains` accumulator in `calculateRSI`). -/
def rsiGains (prices : List ℚ) (period : ℕ) : ℚ :=
  ((rsiDeltas prices period).map (fun d => if 0 < d then d else 0)).sum

/-- Summed absolute negative changes (`losses` accumulator). -/
def rsiLosses (prices : List ℚ) (period : ℕ) : ℚ :=
  ((rsiDeltas prices period).map (fun d => if 0 < d then 0 else -d)).sum

/-- `calculateRSI(prices, period)` from `upbit.ts`. -/
def calculateRSI (prices : List ℚ) (period : ℕ) : ℚ :=
  if prices.length < period + 1 then 50
  else
    let avgGain := rsiGains prices period / period
    let avgLoss := rsiLosses prices period / period
    if avgLoss = 0 then 100
    else
      let rs := avgGain / avgLoss
      100 - 100 / (1 + rs)

/-- `calculateSMA(prices, period)`: mean of the last `period` values, or the
last value (`|| 0` when empty) on insufficient history. -/
def calculateSMA (prices : List ℚ) (period : ℕ) : ℚ :=
  if prices.length < period then prices.getLastD 0
  else (lastN prices period).sum / period

/- ## Fee model -/

/-- `getFeeRate`: `parseFloat(settings.feeRate || "0.0005")`. -/
def getFeeRate (s : BotSettings) : ℚ :=
  s.feeRate.getD (1 / 2000)

/-- `getFeeBuffer`: round-trip fee plus the 0.0005 slippage margin. -/
def getFeeBuffer (s : BotSettings) : ℚ :=
  getFeeRate s * 2 + 1 / 2000

/-- `calculateFee(amount, settings)`. -/
def calculateFee (amount : ℚ) (s : BotSettings) : ℚ :=
  amount * getFeeRate s

/- ## getCurrentPrice -/

/-- `getCurrentPrice`: the fetched ticker price, or `0` when the HTTP call
fails (the `catch` branch). -/
def getCurrentPrice (fetched : Option ℚ) : ℚ :=
  match fetched with
  | some p => p
  | none => 0

/- ## Percent strategy -/

/-- `executePercentStrategy`.  Inputs beyond the settings row: the fetched
current price, `Date.now()`, the two `getAccountBalance` results, and
whether `placeOrder` succeeds.  The source checks the buy and the sell
condition in two independent `if` blocks; both are modelled, with the later
`updateBotSettings` overwriting the earlier one. -/
def executePercentStrategy (s : BotSettings) (currentPrice : ℚ) (now : ℤ)
    (krwBalance coinBalance : ℚ) (orderSucceeds : Bool) : ExecResult :=
  if !s.hasApiKeys then {} else
  let buyThreshold := s.buyThreshold.getD (1 / 2) / 100
  let sellThreshold := s.sellThreshold.getD (1 / 2) / 100
  let targetAmount := s.targetAmount.getD 10000
  let feeBuffer := getFeeBuffer s
  if currentPrice = 0 then {} else
  let referencePrice := s.referencePrice.getD 0
  if referencePrice = 0 then { delta := { referencePrice := some currentPrice } } else
  let priceChange := (currentPrice - referencePrice) / referencePrice
  if now - lastTradeTimeMs s < 30000 then {} else
  let effectiveBuyThreshold := max buyThreshold feeBuffer
  let buyRes : ExecResult :=
    if priceChange ≤ -effectiveBuyThreshold then
      if targetAmount ≤ krwBalance then
        { trades := [⟨.bid, targetAmount, now, orderSucceeds⟩],
          logs := [⟨.bid, currentPrice, targetAmount / currentPrice, statusOf orderSucceeds⟩],
          delta := if orderSucceeds then
              { referencePrice := some currentPrice, lastTradeTime := some now }
            else {} }
      else {}
    else {}
  let effectiveSellThreshold := max sellThreshold feeBuffer
  let sellRes : ExecResult :=
    if effectiveSellThreshold ≤ priceChange then
      let orderValue := coinBalance * currentPrice
      if 5000 ≤ orderValue then
        { trades := [⟨.ask, coinBalance, now, orderSucceeds⟩],
          logs := [⟨.ask, currentPrice, coinBalance, statusOf orderSucceeds⟩],
          delta := if orderSucceeds then
              { referencePrice := some currentPrice, lastTradeTime := some now }
            else {} }
      else {}
    else {}
  { trades := buyRes.trades ++ sellRes.trades,
    logs := buyRes.logs ++ sellRes.logs,
    delta := StateDelta.merge buyRes.delta sellRes.delta }

/- ## DCA strategy -/

/-- `executeDCAStrategy`: hourly fixed-amount buy, skipped when the price is
more than three fee buffers above the 10-candle average. -/
def executeDCAStrategy (s : BotSettings) (candles : List Candle) (now : ℤ)
    (krwBalance : ℚ) (orderSucceeds : Bool) : ExecResult :=
  if !s.hasApiKeys then {} else
  let targetAmount := s.targetAmount.getD 10000
  let feeBuffer := getFeeBuffer s
  if now - lastTradeTimeMs s < 3600000 then {} else
  if candles.length < 15 then {} else
  let prices := candles.map Candle.close
  let currentPrice := prices.getLastD 0
  if currentPrice = 0 then {} else
  let recentAvg := (lastN prices 10).sum / 10
  let priceVsAvg := (currentPrice - recentAvg) / recentAvg
  if feeBuffer * 3 < priceVsAvg then {} else
  if targetAmount ≤ krwBalance then
    { trades := [⟨.bid, targetAmount, now, orderSucceeds⟩],
      logs := [⟨.bid, currentPrice, targetAmount / currentPrice, statusOf orderSucceeds⟩],
      delta := if orderSucceeds then { lastTradeTime := some now } else {} }
  else {}

/- ## Grid strategy -/

/-- `executeGridStrategy`: buy/sell when the price has crossed at least one
grid level from the reference price; `buyThreshold` is the grid step in
percent. -/
def executeGridStrategy (s : BotSettings) (currentPrice : ℚ) (now : ℤ)
    (krwBalance coinBalance : ℚ) (orderSucceeds : Bool) : ExecResult :=
  if !s.hasApiKeys then {} else
  let gridStep := s.buyThreshold.getD 1 / 100
  let targetAmount := s.targetAmount.getD 10000
  let feeBuffer := getFeeBuffer s
  if currentPrice = 0 then {} else
  let effectiveGridStep := max gridStep feeBuffer
  let referencePrice := s.referencePrice.getD 0
  if referencePrice = 0 then { delta := { referencePrice := some currentPrice } } else
  if now - lastTradeTimeMs s < 30000 then {} else
  let priceChange := (currentPrice - referencePrice) / referencePrice
  let gridLevels : ℤ := ⌊|priceChange| / effectiveGridStep⌋
  if 1 ≤ gridLevels then
    if priceChange < 0 then
      let buyAmount := targetAmount * gridLevels
      if buyAmount ≤ krwBalance then
        { trades := [⟨.bid, buyAmount, now, orderSucceeds⟩],
          logs := [⟨.bid, currentPrice, buyAmount / currentPrice, statusOf orderSucceeds⟩],
          delta := if orderSucceeds then
              { referencePrice := some (referencePrice * (1 - effectiveGridStep * gridLevels)),
                lastTradeTime := some now }
            else {} }
      else {}
    else if 0 < priceChange then
      let sellFraction := min ((gridLevels : ℚ) * (1 / 4)) 1
      let sellAmount := coinBalance * sellFraction
      let orderValue := sellAmount * currentPrice
      if 5000 ≤ orderValue then
        { trades := [⟨.ask, sellAmount, now, orderSucceeds⟩],
          logs := [⟨.ask, currentPrice, sellAmount, statusOf orderSucceeds⟩],
          delta := if orderSucceeds then
              { referencePrice := some (referencePrice * (1 + effectiveGridStep * gridLevels)),
                lastTradeTime := some now }
            else {} }
      else {}
    else {}
  else {}

/- ## RSI strategy -/

/-- Outcome of `executeRSIStrategy`.  In the source, both trade branches
interpolate `expectedMovePct` into a `console.log` template, but no binding
of that name exists anywhere in the function (or the file): reaching either
branch raises `ReferenceError: expectedMovePct is not defined` (indeed the
file does not even type-check under `tsc`), before `placeBuyOrder` /
`placeSellOrder` is called.  `referenceError` models that outcome. -/
inductive RsiOutcome
  | ok (r : ExecResult)
  | referenceError
  deriving DecidableEq, Repr

/-- `executeRSIStrategy`: buy below `buyThreshold` (default 30), sell above
`sellThreshold` (default 70), 60-second cooldown. -/
def executeRSIStrategy (s : BotSettings) (candles : List Candle) (now : ℤ)
    (krwBalance coinBalance : ℚ) : RsiOutcome :=
  if !s.hasApiKeys then .ok {} else
  let targetAmount := s.targetAmount.getD 10000
  let buyThreshold := s.buyThreshold.getD 30
  let sellThreshold := s.sellThreshold.getD 70
  if now - lastTradeTimeMs s < 60000 then .ok {} else
  if candles.length < 15 then .ok {} else
  let prices := candles.map Candle.close
  let currentPrice := prices.getLastD 0
  let rsi := calculateRSI prices 14
  if rsi < buyThreshold then
    if targetAmount ≤ krwBalance then .referenceError
    else .ok {}
  else if sellThreshold < rsi then
    let orderValue := coinBalance * currentPrice
    if 5000 ≤ orderValue then .referenceError
    else .ok {}
  else .ok {}

/- ## Moving-average crossover strategy -/

/-- `executeMAStrategy`: golden/death cross of the short and long SMA over
the last 60 one-minute candle closes; `buyThreshold`/`sellThreshold` are
reused as the MA periods. -/
def executeMAStrategy (s : BotSettings) (candles : List Candle) (now : ℤ)
    (krwBalance coinBalance : ℚ) (orderSucceeds : Bool) : ExecResult :=
  if !s.hasApiKeys then {} else
  let targetAmount := s.targetAmount.getD 10000
  let shortPeriod := (⌊s.buyThreshold.getD 5⌋).toNat
  let longPeriod := (⌊s.sellThreshold.getD 20⌋).toNat
  if now - lastTradeTimeMs s < 60000 then {} else
  if candles.length < longPeriod + 2 then {} else
  let prices := candles.map Candle.close
  let currentPrice := prices.getLastD 0
  let shortMA := calculateSMA prices shortPeriod
  let longMA := calculateSMA prices longPeriod
  let prevShortMA := calculateSMA prices.dropLast shortPeriod
  let prevLongMA := calculateSMA prices.dropLast longPeriod
  if prevShortMA ≤ prevLongMA ∧ longMA < shortMA then
    if targetAmount ≤ krwBalance then
      { trades := [⟨.bid, targetAmount, now, orderSucceeds⟩],
        logs := [⟨.bid, currentPrice, targetAmount / currentPrice, statusOf orderSucceeds⟩],
        delta := if orderSucceeds then { lastTradeTime := some now } else {} }
    else {}
  else if prevLongMA ≤ prevShortMA ∧ shortMA < longMA then
    let orderValue := coinBalance * currentPrice
    if 5000 ≤ orderValue then
      { trades := [⟨.ask, coinBalance, now, orderSucceeds⟩],
        logs := [⟨.ask, currentPrice, coinBalance, statusOf orderSucceeds⟩],
        delta := if orderSucceeds then { lastTradeTime := some now } else {} }
    else {}
  else {}

/- ## Bollinger strategy -/

/-- `executeBollingerStrategy`.  The source derives `(upper, middle, lower)`
from `calculateBollingerBands`, whose standard deviation uses `Math.sqrt`
and is in general irrational; the bands are therefore supplied as an input
triple here.  All control flow around them is embedded verbatim: 60-second
cooldown, 20-candle minimum, the band-width profitability gate, and the
band-touch comparisons. -/
def executeBollingerStrategy (s : BotSettings) (candles : List Candle)
    (bands : ℚ × ℚ × ℚ) (now : ℤ) (krwBalance coinBalance : ℚ)
    (orderSucceeds : Bool) : ExecResult :=
  if !s.hasApiKeys then {} else
  let targetAmount := s.targetAmount.getD 10000
  let feeBuffer := getFeeBuffer s
  if now - lastTradeTimeMs s < 60000 then {} else
  if candles.length < 20 then {} else
  let prices := candles.map Candle.close
  let currentPrice := prices.getLastD 0
  let upper := bands.1
  let middle := bands.2.1
  let lower := bands.2.2
  let bandWidthPercent := (upper - lower) / middle
  if bandWidthPercent < feeBuffer * 2 then {} else
  if currentPrice ≤ lower then
    if targetAmount ≤ krwBalance then
      { trades := [⟨.bid, targetAmount, now, orderSucceeds⟩],
        logs := [⟨.bid, currentPrice, targetAmount / currentPrice, statusOf orderSucceeds⟩],
        delta := if orderSucceeds then { lastTradeTime := some now } else {} }
    else {}
  else if upper ≤ currentPrice then
    let orderValue := coinBalance * currentPrice
    if 5000 ≤ orderValue then
      { trades := [⟨.ask, coinBalance, now, orderSucceeds⟩],
        logs := [⟨.ask, currentPrice, coinBalance, statusOf orderSucceeds⟩],
        delta := if orderSucceeds then { lastTradeTime := some now } else {} }
    else {}
  else {}

/- ## Portfolio allocator (from `startLoop`) -/

/-- The markets-to-trade construction in `startLoop`.  `portfolioMarkets` is
the comma-split, trimmed, non-empty market list; `allocsParsed` the
`parseFloat` results of the allocation list (NaN entries already dropped by
the parse model), to which the source's `n > 0` filter is applied here.
Matching lengths: weights normalized to sum to 100 (with the source's
equal-split fallback for a non-positive sum); mismatched lengths: equal
split; no portfolio: the single configured market at 100%. -/
def buildMarketsToTrade (defaultMarket : String) (portfolioMarkets : List String)
    (allocsParsed : List ℚ) : List (String × ℚ) :=
  let raw := allocsParsed.filter (fun n => 0 < n)
  if 0 < portfolioMarkets.length ∧ raw.length = portfolioMarkets.length then
    let rawSum := raw.sum
    let normalizedAllocations :=
      if 0 < rawSum then raw.map (fun a => a / rawSum * 100)
      else raw.map (fun _ => 100 / (portfolioMarkets.length : ℚ))
    portfolioMarkets.zip normalizedAllocations
  else if 0 < portfolioMarkets.length then
    portfolioMarkets.map (fun m => (m, 100 / (portfolioMarkets.length : ℚ)))
  else [(defaultMarket, 100)]

/-- Per-market order amounts: `Math.floor(baseTargetAmount * allocation / 100)`,
with sub-minimum (`< 5000`) amounts skipped by `continue` before any
executor or order-placement call. -/
def allocatedOrders (baseTargetAmount : ℚ) (marketsToTrade : List (String × ℚ)) :
    List (String × ℤ) :=
  (marketsToTrade.map (fun p => (p.1, ⌊baseTargetAmount * p.2 / 100⌋))).filter
    (fun p => 5000 ≤ p.2)

/- ## Scheduler tick (percent strategy) -/

/-- External per-market data consumed during one tick. -/
structure MarketEnv where
  currentPrice : ℚ
  krwBalance : ℚ
  coinBalance : ℚ
  orderSucceeds : Bool

/-- One `setInterval` tick of `startLoop` for a single user running the
percent strategy: the settings snapshot is read once, the per-market plan is
resolved, and each surviving market runs `executePercentStrategy` on a
`marketSettings` copy whose `referencePrice`/`lastTradeTime` come from the
tick-start snapshot (not from the database state already updated by earlier
markets of the same tick).  Returns the final persisted settings and all
order attempts of the tick. -/
def tickMarketStep (snapshot : BotSettings) (now : ℤ) (env : String → MarketEnv)
    (acc : BotSettings × List TradeRec) (p : String × ℚ) : BotSettings × List TradeRec :=
  let baseTargetAmount := snapshot.targetAmount.getD 10000
  let calculatedAmount : ℤ := ⌊baseTargetAmount * p.2 / 100⌋
  if calculatedAmount < 5000 then acc
  else
    let marketSettings := { snapshot with targetAmount := some (calculatedAmount : ℚ) }
    let e := env p.1
    let r := executePercentStrategy marketSettings e.currentPrice now
      e.krwBalance e.coinBalance e.orderSucceeds
    (applyDelta acc.1 r.delta, acc.2 ++ r.trades)

def runTickPercent (snapshot : BotSettings) (defaultMarket : String)
    (portfolioMarkets : List String) (allocsParsed : List ℚ) (now : ℤ)
    (env : String → MarketEnv) : BotSettings × List TradeRec :=
  let baseTargetAmount := snapshot.targetAmount.getD 10000
  if baseTargetAmount ≤ 0 then (snapshot, []) else
  let marketsToTrade := buildMarketsToTrade defaultMarket portfolioMarkets allocsParsed
  marketsToTrade.foldl (tickMarketStep snapshot now env) (snapshot, [])

/- ## Backtest simulator vs live signal (percent strategy) -/

/-- The `case 'percent'` signal of `runBacktest`: percent change of the last
close against the previous close, compared with the raw configured
thresholds (given in percent). -/
def backtestPercentSignal (buyThreshold sellThreshold : ℚ) (prices : List ℚ) : Action :=
  if 2 ≤ prices.length then
    let currentPrice := prices.getLastD 0
    let prevPrice := prices.getD (prices.length - 2) 0
    let change := (currentPrice - prevPrice) / prevPrice * 100
    if change ≤ -buyThreshold then .buy
    else if sellThreshold ≤ change then .sell
    else .hold
  else .hold

/-- The buy/sell/hold decision of the live `executePercentStrategy`
(thresholds given in percent, as stored): price change relative to the
persisted reference price, compared with `max(threshold/100, feeBuffer)`.
This is the comparison kernel of the executor with the balance, cooldown
and minimum-order gates stripped. -/
def livePercentSignal (buyThreshold sellThreshold feeRate referencePrice currentPrice : ℚ) :
    Action :=
  let feeBuffer := feeRate * 2 + 1 / 2000
  let priceChange := (currentPrice - referencePrice) / referencePrice
  if priceChange ≤ -(max (buyThreshold / 100) feeBuffer) then .buy
  else if max (sellThreshold / 100) feeBuffer ≤ priceChange then .sell
  else .hold

/- ## Trade log store and statistics aggregator -/

/-- A `tradeLogs` row (strategy-irrelevant columns elided). -/
structure TradeLog where
  side : Side
  price : ℚ
  volume : ℚ
  timestamp : ℕ
  status : String
  deriving DecidableEq, Repr

/-- Stable ascending insertion by timestamp (the `sort((a, b) => ta - tb)`
in `getStatistics`; JS sort is stable). -/
def insertByTime (x : TradeLog) : List TradeLog → List TradeLog
  | [] => [x]
  | y :: ys =>
    if y.timestamp < x.timestamp then y :: insertByTime x ys
    else x :: y :: ys

def sortByTime (l : List TradeLog) : List TradeLog :=
  l.foldr insertByTime []

/-- Descending insertion by timestamp (`orderBy(desc(tradeLogs.timestamp))`). -/
def insertByTimeDesc (x : TradeLog) : List TradeLog → List TradeLog
  | [] => [x]
  | y :: ys =>
    if x.timestamp < y.timestamp then y :: insertByTimeDesc x ys
    else x :: y :: ys

def sortByTimeDesc (l : List TradeLog) : List TradeLog :=
  l.foldr insertByTimeDesc []

/-- `DatabaseStorage.getTradeLogs` (`storage.ts`): the user's rows ordered
by timestamp descending, capped by `.limit(50)`. -/
def getTradeLogs (allLogs : List TradeLog) : List TradeLog :=
  (sortByTimeDesc allLogs).take 50

/-- Accumulator of the matching loop in `getStatistics`: the FIFO
`buyQueue`, the win/loss tallies, and the day/week/month buckets as
insertion-ordered association lists (JS `Map` preserves insertion order). -/
structure StatsAcc where
  buyQueue : List (ℚ × ℚ × ℕ) := []
  totalProfit : ℚ := 0
  totalLoss : ℚ := 0
  wins : ℕ := 0
  losses : ℕ := 0
  bestTrade : ℚ := 0
  worstTrade : ℚ := 0
  daily : List (ℕ × ℚ × ℕ) := []
  weekly : List (ℕ × ℚ × ℕ) := []
  monthly : List (ℕ × ℚ × ℕ) := []
  deriving DecidableEq, Repr

/-- Add a matched trade's profit to a bucket map (`Map.get`/`set` with the
profit/trade-count record). -/
def bump (k : ℕ) (profit : ℚ) : List (ℕ × ℚ × ℕ) → List (ℕ × ℚ × ℕ)
  | [] => [(k, profit, 1)]
  | (k1, p, n) :: rest =>
    if k1 = k then (k1, p + profit, n + 1) :: rest
    else (k1, p, n) :: bump k profit rest

/-- One iteration of the `getStatistics` matching loop.  Bucket keys: the
source day key `toISOString().split('T')[0]` identifies the UTC day, here
`timestamp / 86400000`; the week key is literally
`floor(ms / (7*24*60*60*1000))`; the month key is local-timezone
year-month, abstracted as `monthKeyOf`.  A `bid` is pushed onto the FIFO
queue; an `ask` is matched against the shifted head when the queue is
non-empty, and ignored otherwise. -/
def statsStep (monthKeyOf : ℕ → ℕ) (acc : StatsAcc) (log : TradeLog) : StatsAcc :=
  let dateKey := log.timestamp / 86400000
  let weekKey := log.timestamp / 604800000
  let monthKey := monthKeyOf log.timestamp
  match log.side with
  | .bid => { acc with buyQueue := acc.buyQueue ++ [(log.price, log.volume, log.timestamp)] }
  | .ask =>
    match acc.buyQueue with
    | [] => acc
    | buy :: rest =>
      let profit := (log.price - buy.1) * log.volume
      let acc1 :=
        if 0 < profit then
          { acc with
            totalProfit := acc.totalProfit + profit
            wins := acc.wins + 1
            bestTrade := if acc.bestTrade < profit then profit else acc.bestTrade }
        else
          { acc with
            totalLoss := acc.totalLoss + |profit|
            losses := acc.losses + 1
            worstTrade := if profit < acc.worstTrade then profit else acc.worstTrade }
      { acc1 with
        buyQueue := rest
        daily := bump dateKey profit acc1.daily
        weekly := bump weekKey profit acc1.weekly
        monthly := bump monthKey profit acc1.monthly }

/-- The result record of `getStatistics`. -/
structure Stats where
  daily : List (ℕ × ℚ × ℕ)
  weekly : List (ℕ × ℚ × ℕ)
  monthly : List (ℕ × ℚ × ℕ)
  winRate : ℚ
  avgProfit : ℚ
  avgLoss : ℚ
  profitFactor : ℚ
  totalProfit : ℚ
  bestTrade : ℚ
  worstTrade : ℚ
  deriving DecidableEq, Repr

/-- `getStatistics`: keep successful entries, sort by timestamp ascending,
FIFO-match, then assemble the aggregate record (`slice(-30)`/`slice(-12)`
on the buckets). -/
def getStatistics (monthKeyOf : ℕ → ℕ) (logs : List TradeLog) : Stats :=
  let successLogs := logs.filter (fun l => l.status = "success")
  let acc := (sortByTime successLogs).foldl (statsStep monthKeyOf) {}
  { daily := lastN acc.daily 30
    weekly := lastN acc.weekly 12
    monthly := lastN acc.monthly 12
    winRate := if 0 < acc.wins + acc.losses then
        (acc.wins : ℚ) / ((acc.wins : ℚ) + (acc.losses : ℚ)) * 100
      else 0
    avgProfit := if 0 < acc.wins then acc.totalProfit / (acc.wins : ℚ) else 0
    avgLoss := if 0 < acc.losses then acc.totalLoss / (acc.losses : ℚ) else 0
    profitFactor := if 0 < acc.totalLoss then acc.totalProfit / acc.totalLoss
      else if 0 < acc.totalProfit then 999 else 0
    totalProfit := acc.totalProfit - acc.totalLoss
    bestTrade := acc.bestTrade
    worstTrade := acc.worstTrade }

/- ## Concrete inputs used by the claim theorems -/

/-- 15 closes whose last 14 deltas are one gain of 1 and one loss of 99999:
average gain 1/14, average loss 99999/14, so RSI is exactly 1/1000. -/
def rsiTinyPrices : List ℚ :=
  [300000, 300001, 200002, 200002, 200002, 200002, 200002, 200002, 200002,
   200002, 200002, 200002, 200002, 200002, 200002]

def rsiTinyCandles : List Candle :=
  rsiTinyPrices.map (fun c => { close := c })

/-- 15 strictly falling closes: every delta is a loss, so RSI is exactly 0. -/
def rsiFallPrices : List ℚ :=
  [104, 103, 102, 101, 100, 99, 98, 97, 96, 95, 94, 93, 92, 91, 90]

def rsiFallCandles : List Candle :=
  rsiFallPrices.map (fun c => { close := c })

/-- Settings with an RSI buy threshold of 1/2000 = 0.0005, tighter than the
default fee buffer 3/2000 = 0.0015. -/
def sTiny : BotSettings :=
  { buyThreshold := some (1 / 2000), targetAmount := some 10000, lastTradeTime := some 0 }

/-- Settings with the default RSI thresholds (30 / 70). -/
def sFall : BotSettings :=
  { targetAmount := some 10000, lastTradeTime := some 0 }

/-- The spec scenario settings for the percent strategy: reference price
100, both thresholds 0.5 (percent), fee rate defaulted (buffer 0.15%). -/
def sSpec : BotSettings :=
  { referencePrice := some 100, lastTradeTime := some 0, buyThreshold := some (1 / 2),
    sellThreshold := some (1 / 2), targetAmount := some 10000 }

/-- Percent settings with a configured buy threshold of 0.05%, tighter than
the 0.15% fee buffer. -/
def sLow : BotSettings :=
  { referencePrice := some 100, lastTradeTime := some 0, buyThreshold := some (1 / 20),
    sellThreshold := some (1 / 2), targetAmount := some 10000 }

/-- Grid settings with a configured grid step of 0.05%, tighter than the
0.15% fee buffer. -/
def sGridLow : BotSettings :=
  { referencePrice := some 100, lastTradeTime := some 0, buyThreshold := some (1 / 20),
    targetAmount := some 10000 }

/-- Tick-scenario snapshot: one user, percent strategy, two portfolio
markets at 50/50, base amount 100000, armed reference price 100, last trade
long ago. -/
def tickSnapshot : BotSettings :=
  { referencePrice := some 100, lastTradeTime := some 0, buyThreshold := some (1 / 2),
    sellThreshold := some (1 / 2), targetAmount := some 100000 }

/-- Both portfolio markets see the same 1% drop, ample balance, and a
successfully filling order. -/
def tickEnv : String → MarketEnv :=
  fun _ => ⟨99, 1000000, 0, true⟩

def tickOutcome : BotSettings × List TradeRec :=
  runTickPercent tickSnapshot "KRW-BTC" ["KRW-AAA", "KRW-BBB"] [50, 50] 1000000 tickEnv

/- ## C1 — backtest vs live signal parity -/

/-- C1: the Backtest Simulator does NOT compute the same percent-strategy
signal as the live executor.  With buy/sell thresholds 0.1 (percent), the
default fee rate, and the price history [1000, 998.8] (so the persisted
reference price equals the previous close), the backtest signals `buy`
(raw threshold, previous-close baseline: a 0.12% drop beats 0.1%), while
the live path signals `hold` (its effective threshold is
max(0.1%, feeBuffer 0.15%) = 0.15% > 0.12%), and the live executor indeed
does nothing at that input.  This contradicts the spec's requirement of
identical logic, exhibiting the divergence as a bug in the code. -/
theorem c1_backtest_live_divergence :
    backtestPercentSignal (1 / 10) (1 / 10) [1000, 9988 / 10] = .buy ∧
    livePercentSignal (1 / 10) (1 / 10) (1 / 2000) 1000 (9988 / 10) = .hold ∧
    executePercentStrategy
      { referencePrice := some 1000, lastTradeTime := some 0,
        buyThreshold := some (1 / 10), sellThreshold := some (1 / 10),
        targetAmount := some 10000 }
      (9988 / 10) 1000000 1000000 0 true = {} := by
  refine ⟨by norm_num [backtestPercentSignal], by norm_num [livePercentSignal], ?_⟩
  norm_num [executePercentStrategy, getFeeBuffer, getFeeRate, lastTradeTimeMs, statusOf,
    StateDelta.merge]

/- ## C4 — RSI strategy execution -/

/-- C4: with 15 falling closes the RSI is exactly 0 (below the default buy
threshold 30), the balance covers `targetAmount`, and the 60-second
cooldown has elapsed — yet `executeRSIStrategy` raises
`ReferenceError: expectedMovePct is not defined` while building the signal
log line, before `placeBuyOrder` is reached: no order is placed and no
trade-log row is written, contradicting the claim. -/
theorem c4_rsi_crashes_before_order :
    calculateRSI rsiFallPrices 14 = 0 ∧
    executeRSIStrategy sFall rsiFallCandles 1000000 1000000 0 = .referenceError := by
  constructor
  · norm_num [calculateRSI, rsiGains, rsiLosses, rsiDeltas, consecutiveDeltas, lastN,
      rsiFallPrices]
  · norm_num [executeRSIStrategy, sFall, rsiFallCandles, rsiFallPrices, lastTradeTimeMs,
      calculateRSI, rsiGains, rsiLosses, rsiDeltas, consecutiveDeltas, lastN]

/- ## C9 — state unchanged on a price-fetch error -/

/-- C9: a failed ticker fetch makes `getCurrentPrice` return 0, and on a
zero current price both the percent and the grid executor return
immediately: no order, no trade-log row, and no change to
`referencePrice`/`lastTradeTime`. -/
theorem c9_fetch_failure_no_state_change :
    getCurrentPrice none = 0 ∧
    (∀ (s : BotSettings) (now : ℤ) (kb cb : ℚ) (os : Bool),
      executePercentStrategy s 0 now kb cb os = {}) ∧
    (∀ (s : BotSettings) (now : ℤ) (kb cb : ℚ) (os : Bool),
      executeGridStrategy s 0 now kb cb os = {}) := by
  refine ⟨rfl, ?_, ?_⟩
  · intro s now kb cb os
    simp [executePercentStrategy]
  · intro s now kb cb os
    simp [executeGridStrategy]

/- ## C2 — cooldown -/

/-- First evaluation of the 10-second scenario: armed reference price 100,
qualifying 0.6% drop, ample balance, successful order at t = 1000000 ms. -/
def tenSecFirst : ExecResult :=
  executePercentStrategy sSpec (994 / 10) 1000000 1000000 0 true

/-- The settings after the first trade's `updateBotSettings` is persisted. -/
def tenSecSecondState : BotSettings :=
  applyDelta sSpec tenSecFirst.delta

/-- C2 counterexample: one scheduler tick fans the same state out over two
portfolio markets; both markets reuse the tick-start snapshot's
`lastTradeTime`, so both place successful buys at the same instant — two
successfully executed trades for the same state 0 ms apart, far below the
30-second cooldown the claim requires. -/
theorem c2_counterexample :
    tickOutcome.2.map TradeRec.time = [1000000, 1000000] ∧
    tickOutcome.2.map TradeRec.success = [true, true] ∧
    ¬ (30000 ≤ (1000000 : ℤ) - 1000000) := by
  have hx : executePercentStrategy
        { tickSnapshot with targetAmount := some ((50000 : ℤ) : ℚ) }
        99 1000000 1000000 0 true =
      { trades := [⟨.bid, ((50000 : ℤ) : ℚ), 1000000, true⟩],
        logs := [⟨.bid, 99, ((50000 : ℤ) : ℚ) / 99, "success"⟩],
        delta := { referencePrice := some 99, lastTradeTime := some 1000000 } } := by
    norm_num [tickSnapshot, executePercentStrategy, getFeeBuffer, getFeeRate,
      lastTradeTimeMs, statusOf, StateDelta.merge]
  have hstep : ∀ (acc : BotSettings × List TradeRec) (m : String),
      tickMarketStep tickSnapshot 1000000 tickEnv acc (m, (50 : ℚ)) =
        (applyDelta acc.1 { referencePrice := some 99, lastTradeTime := some 1000000 },
         acc.2 ++ [⟨.bid, 50000, 1000000, true⟩]) := by
    intro acc m
    have hbase : tickSnapshot.targetAmount.getD 10000 = (100000 : ℚ) := rfl
    simp only [tickMarketStep, hbase]
    rw [show ⌊(100000 : ℚ) * 50 / 100⌋ = (50000 : ℤ) from by norm_num]
    rw [if_neg (by norm_num)]
    simp only [tickEnv]
    rw [hx]
    norm_num
  have hm : buildMarketsToTrade "KRW-BTC" ["KRW-AAA", "KRW-BBB"] [50, 50] =
      [("KRW-AAA", (50 : ℚ)), ("KRW-BBB", (50 : ℚ))] := by
    norm_num [buildMarketsToTrade]
  have hbase : tickSnapshot.targetAmount.getD 10000 = (100000 : ℚ) := rfl
  refine ⟨?_, ?_, by norm_num⟩ <;>
  · simp only [tickOutcome, runTickPercent, hbase, hm]
    rw [if_neg (by norm_num)]
    simp only [List.foldl_cons, List.foldl_nil, hstep]
    simp

set_option maxHeartbeats 2000000 in
/-- C2 (amended): any single executor call that attempts an order has seen
the cooldown of its strategy elapse against the `lastTradeTime` carried by
the settings it was given — 30 s for percent and grid, 60 s for rsi
(where reaching a trade path means hitting the `expectedMovePct`
`ReferenceError`), ma and bollinger, 3600 s for dca.  Consequently two
trades whose second evaluation reads a snapshot carrying the first trade's
persisted `lastTradeTime` are at least the cooldown apart; in particular
(last three conjuncts), of two qualifying buy signals 10 s apart under the
30-second cooldown only the first executes, and the second is blocked by
the cooldown alone — the same price 40 s later trades.  The guarantee does
NOT extend to several portfolio markets inside one tick, which all reuse
the tick-start snapshot (see the counterexample). -/
theorem c2_cooldown_amended :
    (∀ (s : BotSettings) (cp : ℚ) (now : ℤ) (kb cb : ℚ) (os : Bool),
      (executePercentStrategy s cp now kb cb os).trades ≠ [] →
      30000 ≤ now - lastTradeTimeMs s) ∧
    (∀ (s : BotSettings) (cp : ℚ) (now : ℤ) (kb cb : ℚ) (os : Bool),
      (executeGridStrategy s cp now kb cb os).trades ≠ [] →
      30000 ≤ now - lastTradeTimeMs s) ∧
    (∀ (s : BotSettings) (candles : List Candle) (now : ℤ) (kb cb : ℚ),
      executeRSIStrategy s candles now kb cb ≠ .ok {} →
      60000 ≤ now - lastTradeTimeMs s) ∧
    (∀ (s : BotSettings) (candles : List Candle) (now : ℤ) (kb cb : ℚ) (os : Bool),
      (executeMAStrategy s candles now kb cb os).trades ≠ [] →
      60000 ≤ now - lastTradeTimeMs s) ∧
    (∀ (s : BotSettings) (candles : List Candle) (bands : ℚ × ℚ × ℚ) (now : ℤ)
      (kb cb : ℚ) (os : Bool),
      (executeBollingerStrategy s candles bands now kb cb os).trades ≠ [] →
      60000 ≤ now - lastTradeTimeMs s) ∧
    (∀ (s : BotSettings) (candles : List Candle) (now : ℤ) (kb : ℚ) (os : Bool),
      (executeDCAStrategy s candles now kb os).trades ≠ [] →
      3600000 ≤ now - lastTradeTimeMs s) ∧
    tenSecFirst.trades = [⟨.bid, 10000, 1000000, true⟩] ∧
    executePercentStrategy tenSecSecondState (988 / 10) 1010000 1000000 0 true = {} ∧
    (executePercentStrategy tenSecSecondState (988 / 10) 1040000 1000000 0 true).trades =
      [⟨.bid, 10000, 1040000, true⟩] := by
  refine ⟨?_, ?_, ?_, ?_, ?_, ?_, ?_, ?_, ?_⟩
  · intro s cp now kb cb os h
    simp only [executePercentStrategy] at h
    split at h
    · exact absurd rfl h
    split at h
    · exact absurd rfl h
    split at h
    · exact absurd rfl h
    split at h
    · exact absurd rfl h
    omega
  · intro s cp now kb cb os h
    simp only [executeGridStrategy] at h
    split at h
    · exact absurd rfl h
    split at h
    · exact absurd rfl h
    split at h
    · exact absurd rfl h
    split at h
    · exact absurd rfl h
    omega
  · intro s candles now kb cb h
    simp only [executeRSIStrategy] at h
    split at h
    · exact absurd rfl h
    split at h
    · exact absurd rfl h
    omega
  · intro s candles now kb cb os h
    simp only [executeMAStrategy] at h
    split at h
    · exact absurd rfl h
    split at h
    · exact absurd rfl h
    omega
  · intro s candles bands now kb cb os h
    simp only [executeBollingerStrategy] at h
    split at h
    · exact absurd rfl h
    split at h
    · exact absurd rfl h
    omega
  · intro s candles now kb os h
    simp only [executeDCAStrategy] at h
    split at h
    · exact absurd rfl h
    split at h
    · exact absurd rfl h
    omega
  · norm_num [tenSecFirst, sSpec, executePercentStrategy, getFeeBuffer, getFeeRate,
      lastTradeTimeMs, statusOf, StateDelta.merge]
  · norm_num [tenSecSecondState, tenSecFirst, sSpec, applyDelta, executePercentStrategy,
      getFeeBuffer, getFeeRate, lastTradeTimeMs, statusOf, StateDelta.merge]
  · norm_num [tenSecSecondState, tenSecFirst, sSpec, applyDelta, executePercentStrategy,
      getFeeBuffer, getFeeRate, lastTradeTimeMs, statusOf, StateDelta.merge]

/-- Witness for the amended C2: the first scenario evaluation does attempt
an order, and the theorem's percent component then certifies the 30-second
cooldown had elapsed at that concrete input. -/
theorem c2_cooldown_amended_witness :
    (executePercentStrategy sSpec (994 / 10) 1000000 1000000 0 true).trades ≠ [] ∧
    30000 ≤ (1000000 : ℤ) - lastTradeTimeMs sSpec := by
  have h : (executePercentStrategy sSpec (994 / 10) 1000000 1000000 0 true).trades ≠ [] := by
    norm_num [sSpec, executePercentStrategy, getFeeBuffer, getFeeRate,
      lastTradeTimeMs, statusOf, StateDelta.merge]
  exact ⟨h, c2_cooldown_amended.1 sSpec (994 / 10) 1000000 1000000 0 true h⟩

/- ## C3 — fee-buffer threshold adjustment -/

/-- C3 counterexample: the claim quantifies over every strategy, but the
RSI strategy compares the RSI value against the configured threshold alone.
With `buyThreshold` 1/2000 (tighter than the fee buffer 3/2000) and candles
whose RSI is exactly 1/1000, the claim's threshold
`max(configured, feeBuffer)` would signal a buy (RSI below it, balance and
cooldown fine), yet the executor takes no action at all. -/
theorem c3_counterexample :
    calculateRSI rsiTinyPrices 14 = 1 / 1000 ∧
    (1 / 1000 : ℚ) < max (1 / 2000) (getFeeBuffer sTiny) ∧
    executeRSIStrategy sTiny rsiTinyCandles 1000000 1000000 0 = .ok {} := by
  refine ⟨?_, by norm_num [getFeeBuffer, getFeeRate, sTiny], ?_⟩
  · norm_num [calculateRSI, rsiGains, rsiLosses, rsiDeltas, consecutiveDeltas, lastN,
      rsiTinyPrices]
  · norm_num [executeRSIStrategy, sTiny, rsiTinyCandles, rsiTinyPrices, lastTradeTimeMs,
      calculateRSI, rsiGains, rsiLosses, rsiDeltas, consecutiveDeltas, lastN]

set_option maxHeartbeats 2000000 in
/-- C3 (amended): the fee-buffer raise applies to the percent and grid
strategies only.  Percent: a configured 0.05% buy threshold is raised to
the 0.15% buffer (a 0.1% drop holds, a 0.2% drop buys), and the spec
scenario holds as stated (reference 100, threshold 0.5%, buffer 0.15%:
price 99.4 buys, 99.7 holds — never loosened).  Grid: a configured 0.05%
step is likewise raised to 0.15% (a 0.1% drop crosses no level; a 0.3% drop
crosses two).  The rsi strategy instead compares RSI to the configured
threshold directly — with the same candles (RSI = 1/1000), threshold
1/2000 produces no action while threshold 30 enters the buy path (where it
hits the `expectedMovePct` reference error). -/
theorem c3_threshold_amended :
    executePercentStrategy sLow (999 / 10) 1000000 1000000 0 true = {} ∧
    (executePercentStrategy sLow (998 / 10) 1000000 1000000 0 true).trades =
      [⟨.bid, 10000, 1000000, true⟩] ∧
    (executePercentStrategy sSpec (994 / 10) 1000000 1000000 0 true).trades =
      [⟨.bid, 10000, 1000000, true⟩] ∧
    executePercentStrategy sSpec (997 / 10) 1000000 1000000 0 true = {} ∧
    executeGridStrategy sGridLow (999 / 10) 1000000 1000000 0 true = {} ∧
    (executeGridStrategy sGridLow (997 / 10) 1000000 1000000 0 true).trades =
      [⟨.bid, 20000, 1000000, true⟩] ∧
    executeRSIStrategy sTiny rsiTinyCandles 1000000 1000000 0 = .ok {} ∧
    executeRSIStrategy { sTiny with buyThreshold := some 30 } rsiTinyCandles
      1000000 1000000 0 = .referenceError := by
  refine ⟨?_, ?_, ?_, ?_, ?_, ?_, ?_, ?_⟩
  · norm_num [sLow, executePercentStrategy, getFeeBuffer, getFeeRate, lastTradeTimeMs,
      statusOf, StateDelta.merge]
  · norm_num [sLow, executePercentStrategy, getFeeBuffer, getFeeRate, lastTradeTimeMs,
      statusOf, StateDelta.merge]
  · norm_num [sSpec, executePercentStrategy, getFeeBuffer, getFeeRate, lastTradeTimeMs,
      statusOf, StateDelta.merge]
  · norm_num [sSpec, executePercentStrategy, getFeeBuffer, getFeeRate, lastTradeTimeMs,
      statusOf, StateDelta.merge]
  · have h1 : (⌊|(1 : ℚ) / 1000| / (3 / 2000)⌋ : ℤ) = 0 := by
      rw [show |(1 : ℚ) / 1000| = 1 / 1000 from abs_of_pos (by norm_num), Int.floor_eq_iff]
      norm_num
    norm_num [sGridLow, executeGridStrategy, getFeeBuffer, getFeeRate, lastTradeTimeMs,
      statusOf, StateDelta.merge, h1]
  · have h1 : (⌊|(3 : ℚ) / 1000| / (3 / 2000)⌋ : ℤ) = 2 := by
      rw [show |(3 : ℚ) / 1000| = 3 / 1000 from abs_of_pos (by norm_num), Int.floor_eq_iff]
      norm_num
    norm_num [sGridLow, executeGridStrategy, getFeeBuffer, getFeeRate, lastTradeTimeMs,
      statusOf, StateDelta.merge, h1]
  · norm_num [executeRSIStrategy, sTiny, rsiTinyCandles, rsiTinyPrices, lastTradeTimeMs,
      calculateRSI, rsiGains, rsiLosses, rsiDeltas, consecutiveDeltas, lastN]
  · norm_num [executeRSIStrategy, sTiny, rsiTinyCandles, rsiTinyPrices, lastTradeTimeMs,
      calculateRSI, rsiGains, rsiLosses, rsiDeltas, consecutiveDeltas, lastN]

/- ## C6 — grid strategy levels, sizing, and reference shift -/

/-- Grid-strategy settings row: configured step `bt` (percent), target
amount `T`, armed reference price `R`, last trade at `t0`, fee rate `fr`. -/
def gridSettings (bt T R : ℚ) (t0 : ℤ) (fr : Option ℚ) : BotSettings :=
  { buyThreshold := some bt, targetAmount := some T, referencePrice := some R,
    lastTradeTime := some t0, feeRate := fr }

set_option maxHeartbeats 1000000 in
/-- C6: with grid step `s = bt/100 ≥ feeBuffer` (so the effective step is
`s` itself) and current price `R·(1 − 2.5·s)`, the executor crosses
`⌊2.5⌋ = 2` levels: it buys `2·targetAmount` and shifts the reference to
`R·(1 − 2·s)`, preserving the remaining half-level offset.  Symmetrically
at `R·(1 + 2.5·s)` it sells `min(2·25%, 100%) = 50%` of the holdings and
shifts the reference to `R·(1 + 2·s)`. -/
theorem c6_grid_levels (bt T R : ℚ) (t0 now : ℤ) (fr : Option ℚ) (krw coin : ℚ)
    (h1 : getFeeBuffer (gridSettings bt T R t0 fr) ≤ bt / 100)
    (h2 : 0 < bt) (h3 : 0 < R) (h4 : bt < 40)
    (h5 : 30000 ≤ now - t0) (h6 : T * 2 ≤ krw)
    (h7 : 5000 ≤ coin * (1 / 2) * (R * (1 + 5 / 2 * (bt / 100)))) :
    (executeGridStrategy (gridSettings bt T R t0 fr)
      (R * (1 - 5 / 2 * (bt / 100))) now krw coin true).trades =
      [⟨.bid, T * 2, now, true⟩] ∧
    (executeGridStrategy (gridSettings bt T R t0 fr)
      (R * (1 - 5 / 2 * (bt / 100))) now krw coin true).delta.referencePrice =
      some (R * (1 - bt / 100 * 2)) ∧
    (executeGridStrategy (gridSettings bt T R t0 fr)
      (R * (1 + 5 / 2 * (bt / 100))) now krw coin true).trades =
      [⟨.ask, coin * (1 / 2), now, true⟩] ∧
    (executeGridStrategy (gridSettings bt T R t0 fr)
      (R * (1 + 5 / 2 * (bt / 100))) now krw coin true).delta.referencePrice =
      some (R * (1 + bt / 100 * 2)) := by
  have hdiv : 5 / 2 * (bt / 100) / (bt / 100) = (5 / 2 : ℚ) := by
    field_simp
    ring
  simp only [gridSettings] at h1
  have hsup : bt / 100 ⊔ getFeeBuffer
      { hasApiKeys := true, buyThreshold := some bt, sellThreshold := none,
        targetAmount := some T, feeRate := fr, referencePrice := some R,
        lastTradeTime := some t0 } = bt / 100 := sup_eq_left.mpr h1
  have hbuy : (executeGridStrategy (gridSettings bt T R t0 fr)
      (R * (1 - 5 / 2 * (bt / 100))) now krw coin true) =
      { trades := [⟨.bid, T * 2, now, true⟩],
        logs := [⟨.bid, R * (1 - 5 / 2 * (bt / 100)),
          T * 2 / (R * (1 - 5 / 2 * (bt / 100))), "success"⟩],
        delta := { referencePrice := some (R * (1 - bt / 100 * 2)),
                   lastTradeTime := some now } } := by
    have hcp : (0 : ℚ) < R * (1 - 5 / 2 * (bt / 100)) :=
      mul_pos h3 (by linarith : (0 : ℚ) < 1 - 5 / 2 * (bt / 100))
    have hpc : (R * (1 - 5 / 2 * (bt / 100)) - R) / R = -(5 / 2 * (bt / 100)) := by
      field_simp
      ring
    have habs : |(-(5 / 2 * (bt / 100)))| = 5 / 2 * (bt / 100) := by
      rw [abs_neg]
      exact abs_of_pos (by positivity)
    simp only [executeGridStrategy, gridSettings, Option.getD, lastTradeTimeMs]
    rw [hpc, habs, hsup, hdiv]
    rw [show ⌊(5 / 2 : ℚ)⌋ = (2 : ℤ) from by norm_num]
    rw [if_neg (by simp : ¬ ((!true) = true))]
    rw [if_neg hcp.ne.symm]
    rw [if_neg h3.ne.symm]
    rw [if_neg (by omega : ¬ (now - t0 < 30000))]
    rw [if_pos (by norm_num : (1 : ℤ) ≤ 2)]
    rw [if_pos (neg_lt_zero.mpr (by positivity : (0 : ℚ) < 5 / 2 * (bt / 100)))]
    rw [if_pos (by push_cast; linarith : T * ((2 : ℤ) : ℚ) ≤ krw)]
    push_cast
    norm_num [statusOf]
  have hsell : (executeGridStrategy (gridSettings bt T R t0 fr)
      (R * (1 + 5 / 2 * (bt / 100))) now krw coin true) =
      { trades := [⟨.ask, coin * (1 / 2), now, true⟩],
        logs := [⟨.ask, R * (1 + 5 / 2 * (bt / 100)), coin * (1 / 2), "success"⟩],
        delta := { referencePrice := some (R * (1 + bt / 100 * 2)),
                   lastTradeTime := some now } } := by
    have hcp : (0 : ℚ) < R * (1 + 5 / 2 * (bt / 100)) :=
      mul_pos h3 (by positivity : (0 : ℚ) < 1 + 5 / 2 * (bt / 100))
    have hpc : (R * (1 + 5 / 2 * (bt / 100)) - R) / R = 5 / 2 * (bt / 100) := by
      field_simp
      ring
    have habs : |(5 / 2 * (bt / 100) : ℚ)| = 5 / 2 * (bt / 100) :=
      abs_of_pos (by positivity)
    simp only [executeGridStrategy, gridSettings, Option.getD, lastTradeTimeMs]
    rw [hpc, habs, hsup, hdiv]
    rw [show ⌊(5 / 2 : ℚ)⌋ = (2 : ℤ) from by norm_num]
    rw [if_neg (by simp : ¬ ((!true) = true))]
    rw [if_neg hcp.ne.symm]
    rw [if_neg h3.ne.symm]
    rw [if_neg (by omega : ¬ (now - t0 < 30000))]
    rw [if_pos (by norm_num : (1 : ℤ) ≤ 2)]
    rw [if_neg (not_lt.mpr (by positivity : (0 : ℚ) ≤ 5 / 2 * (bt / 100)))]
    rw [if_pos (by positivity : (0 : ℚ) < 5 / 2 * (bt / 100))]
    rw [show (((2 : ℤ) : ℚ) * (1 / 4) ⊓ 1) = 1 / 2 from by norm_num]
    rw [if_pos h7]
    push_cast
    norm_num [statusOf]
  exact ⟨by rw [hbuy], by rw [hbuy], by rw [hsell], by rw [hsell]⟩

/-- Witness for C6 at step 1%, target 10000, reference 100, default fee
rate, ample balances. -/
theorem c6_grid_levels_witness :
    (executeGridStrategy (gridSettings 1 10000 100 0 none)
      (100 * (1 - 5 / 2 * (1 / 100))) 1000000 1000000 1000 true).trades =
      [⟨.bid, 10000 * 2, 1000000, true⟩] ∧
    (executeGridStrategy (gridSettings 1 10000 100 0 none)
      (100 * (1 + 5 / 2 * (1 / 100))) 1000000 1000000 1000 true).trades =
      [⟨.ask, 1000 * (1 / 2), 1000000, true⟩] := by
  have h := c6_grid_levels 1 10000 100 0 1000000 none 1000000 1000
    (by norm_num [getFeeBuffer, getFeeRate, gridSettings])
    (by norm_num) (by norm_num) (by norm_num) (by norm_num) (by norm_num) (by norm_num)
  exact ⟨h.1, h.2.2.1⟩

/- ## C7 — RSI range and edge values -/

lemma rsiGains_nonneg (prices : List ℚ) (period : ℕ) : 0 ≤ rsiGains prices period := by
  apply List.sum_nonneg
  intro x hx
  obtain ⟨d, hd, rfl⟩ := List.mem_map.mp hx
  split
  · rename_i h
    exact le_of_lt h
  · exact le_rfl

lemma rsiLosses_nonneg (prices : List ℚ) (period : ℕ) : 0 ≤ rsiLosses prices period := by
  apply List.sum_nonneg
  intro x hx
  obtain ⟨d, hd, rfl⟩ := List.mem_map.mp hx
  split
  · exact le_rfl
  · rename_i h
    simp only [neg_nonneg]
    exact le_of_not_lt h

/-- Fifteen rising closes: every delta is a gain, so the summed losses over
the last fourteen deltas are zero. -/
def risingPrices : List ℚ :=
  [1, 2, 3, 4, 5, 6, 7, 8, 9, 10, 11, 12, 13, 14, 15]

/-- C7: for any positive period, `calculateRSI` stays within [0, 100]; it
returns exactly 50 whenever fewer than `period + 1` prices are available,
and exactly 100 whenever enough prices are available and the summed losses
over the last `period` deltas (hence the average loss) are zero. -/
theorem c7_rsi_range :
    (∀ (prices : List ℚ) (period : ℕ), 1 ≤ period →
      0 ≤ calculateRSI prices period ∧ calculateRSI prices period ≤ 100) ∧
    (∀ (prices : List ℚ) (period : ℕ), prices.length < period + 1 →
      calculateRSI prices period = 50) ∧
    (∀ (prices : List ℚ) (period : ℕ), 1 ≤ period → period + 1 ≤ prices.length →
      rsiLosses prices period = 0 → calculateRSI prices period = 100) := by
  refine ⟨?_, ?_, ?_⟩
  · intro prices period hp
    simp only [calculateRSI]
    split
    · norm_num
    · split
      · norm_num
      · rename_i hlen hL
        have hper : (0 : ℚ) < period := by exact_mod_cast hp
        have hg := rsiGains_nonneg prices period
        have hl := rsiLosses_nonneg prices period
        have hLpos : 0 < rsiLosses prices period / period :=
          lt_of_le_of_ne (div_nonneg hl hper.le) (Ne.symm hL)
        have hrs0 : 0 ≤ rsiGains prices period / ↑period /
            (rsiLosses prices period / ↑period) :=
          div_nonneg (div_nonneg hg hper.le) hLpos.le
        set rs := rsiGains prices period / ↑period /
            (rsiLosses prices period / ↑period) with hrs
        have hfrac : 0 < 100 / (1 + rs) := by positivity
        have hfrac2 : 100 / (1 + rs) ≤ 100 := by
          rw [div_le_iff₀ (by linarith : (0 : ℚ) < 1 + rs)]
          nlinarith
        constructor <;> linarith
  · intro prices period h
    simp only [calculateRSI]
    rw [if_pos h]
  · intro prices period hp hlen hzero
    simp only [calculateRSI]
    rw [if_neg (by omega : ¬ prices.length < period + 1)]
    rw [hzero]
    norm_num

/-- Witness for C7: the range bound at the tiny-RSI demo prices, the
neutral 50 on an empty history, and the exact 100 on fifteen rising
closes. -/
theorem c7_rsi_range_witness :
    (0 ≤ calculateRSI rsiTinyPrices 14 ∧ calculateRSI rsiTinyPrices 14 ≤ 100) ∧
    calculateRSI ([] : List ℚ) 14 = 50 ∧
    calculateRSI risingPrices 14 = 100 := by
  refine ⟨c7_rsi_range.1 rsiTinyPrices 14 (by norm_num), ?_, ?_⟩
  · exact c7_rsi_range.2.1 [] 14 (by norm_num)
  · exact c7_rsi_range.2.2 risingPrices 14 (by norm_num)
      (by norm_num [risingPrices])
      (by norm_num [rsiLosses, rsiDeltas, consecutiveDeltas, lastN, risingPrices])

/- ## C5 — portfolio normalization and minimum order -/

lemma sum_map_div_mul (l : List ℚ) (s : ℚ) :
    (l.map (fun a => a / s * 100)).sum = l.sum / s * 100 := by
  induction l with
  | nil => simp
  | cons a t ih =>
    simp only [List.map_cons, List.sum_cons, ih]
    ring

lemma sum_map_constant (l : List String) (c : ℚ) :
    (l.map (fun _ => c)).sum = l.length * c := by
  induction l with
  | nil => simp
  | cons a t ih =>
    simp only [List.map_cons, List.sum_cons, ih, List.length_cons]
    push_cast
    ring

lemma sum_zip_snd (l1 : List String) (l2 : List ℚ) (h : l1.length = l2.length) :
    ((l1.zip l2).map Prod.snd).sum = l2.sum := by
  induction l1 generalizing l2 with
  | nil =>
    cases l2 with
    | nil => simp
    | cons b t2 => simp at h
  | cons a t1 ih =>
    cases l2 with
    | nil => simp at h
    | cons b t2 =>
      simp only [List.zip_cons_cons, List.map_cons, List.sum_cons]
      rw [ih t2 (by simpa using h)]

lemma sum_pos_of_mem (l : List ℚ) (h : ∀ a ∈ l, 0 < a) (hne : l ≠ []) : 0 < l.sum := by
  induction l with
  | nil => exact absurd rfl hne
  | cons a t ih =>
    simp only [List.sum_cons]
    have ha : 0 < a := h a (List.mem_cons_self a t)
    have ht : 0 ≤ t.sum :=
      List.sum_nonneg (fun x hx => le_of_lt (h x (List.mem_cons_of_mem a hx)))
    linarith

/-- C5: (1) whatever the default market, portfolio list and parsed raw
weights, the per-market allocations produced by `startLoop` sum to exactly
100 — rescaled when lengths match (the positive raw weights then force a
positive sum), equal-split on any mismatch, single-market 100% otherwise —
and (2) every (market, amount) pair surviving to order placement carries
`amount = ⌊base · allocation / 100⌋` for its allocation and is at least the
5000 exchange minimum. -/
theorem c5_portfolio_allocation :
    (∀ (dm : String) (pm : List String) (ap : List ℚ),
      ((buildMarketsToTrade dm pm ap).map Prod.snd).sum = 100) ∧
    (∀ (base : ℚ) (mt : List (String × ℚ)) (p : String × ℤ),
      p ∈ allocatedOrders base mt →
      5000 ≤ p.2 ∧ ∃ q ∈ mt, p = (q.1, ⌊base * q.2 / 100⌋)) := by
  constructor
  · intro dm pm ap
    simp only [buildMarketsToTrade]
    split
    · rename_i hc
      obtain ⟨hpos, hlen⟩ := hc
      set raw := ap.filter (fun n => 0 < n) with hraw
      have hrawpos : ∀ a ∈ raw, 0 < a := by
        intro a ha
        have := List.of_mem_filter ha
        exact of_decide_eq_true this
      have hrawne : raw ≠ [] := by
        intro hnil
        rw [hnil] at hlen
        simp at hlen
        omega
      have hsum : 0 < raw.sum := sum_pos_of_mem raw hrawpos hrawne
      rw [if_pos hsum]
      rw [sum_zip_snd pm _ (by simp [hlen])]
      rw [sum_map_div_mul]
      rw [div_self (ne_of_gt hsum)]
      ring
    · split
      · rename_i hc hpos
        simp only [List.map_map, Function.comp_def]
        rw [sum_map_constant]
        have : (pm.length : ℚ) ≠ 0 := by
          have : 0 < pm.length := hpos
          positivity
        field_simp
      · simp
  · intro base mt p hp
    simp only [allocatedOrders, List.mem_filter, List.mem_map] at hp
    obtain ⟨⟨q, hq, rfl⟩, h2⟩ := hp
    constructor
    · exact of_decide_eq_true h2
    · exact ⟨q, hq, rfl⟩

/-- Witness for C5: raw weights [30, 90] normalize to [25, 75] (sum 100),
and the surviving pair ("KRW-AAA", ⌊100000·25/100⌋ = 25000) clears the
5000 minimum. -/
theorem c5_portfolio_allocation_witness :
    ((buildMarketsToTrade "KRW-BTC" ["KRW-AAA", "KRW-BBB"] [30, 90]).map
      Prod.snd).sum = 100 ∧
    (5000 ≤ (("KRW-AAA", (25000 : ℤ)) : String × ℤ).2 ∧
      ∃ q ∈ [(("KRW-AAA" : String), (25 : ℚ)), ("KRW-BBB", 75)],
        (("KRW-AAA", (25000 : ℤ)) : String × ℤ) = (q.1, ⌊(100000 : ℚ) * q.2 / 100⌋)) := by
  constructor
  · exact c5_portfolio_allocation.1 "KRW-BTC" ["KRW-AAA", "KRW-BBB"] [30, 90]
  · exact c5_portfolio_allocation.2 100000 [("KRW-AAA", 25), ("KRW-BBB", 75)]
      ("KRW-AAA", 25000)
      (by norm_num [allocatedOrders, List.mem_filter, List.mem_map])

/- ## C8 — statistics aggregator -/

/-- The spec scenario log: one buy of 1 unit at 100, one sell of 1 unit at
110, both successful, within the same UTC day/week. -/
def roundTripLogs : List TradeLog :=
  [⟨.bid, 100, 1, 0, "success"⟩, ⟨.ask, 110, 1, 1, "success"⟩]

/-- Two buys (at 100 then 200) and one sell at 150: FIFO matching pairs the
sell with the EARLIEST unmatched buy, yielding profit +50, not −50. -/
def fifoLogs : List TradeLog :=
  [⟨.bid, 100, 1, 0, "success"⟩, ⟨.bid, 200, 1, 1, "success"⟩,
   ⟨.ask, 150, 1, 2, "success"⟩]

set_option maxHeartbeats 1000000 in
/-- C8: `getStatistics` depends only on the `status = "success"` entries
(first conjunct); on the log [buy 100×1, sell 110×1] it reports, for any
month-key function, exactly one matched round trip with profit
(110 − 100)·1 = 10 in each time bucket, win rate 100% and total profit 10
(second conjunct); and its sell-matching is FIFO: with buys at 100 then
200 and a sell at 150, the profit is (150 − 100)·1 = +50 against the
earliest unmatched buy, a 100% win rate (third conjunct). -/
theorem c8_statistics_fifo :
    (∀ (mk : ℕ → ℕ) (logs : List TradeLog),
      getStatistics mk logs =
        getStatistics mk (logs.filter (fun l => l.status = "success"))) ∧
    (∀ (mk : ℕ → ℕ), getStatistics mk roundTripLogs =
      { daily := [(0, 10, 1)], weekly := [(0, 10, 1)], monthly := [(mk 1, 10, 1)],
        winRate := 100, avgProfit := 10, avgLoss := 0, profitFactor := 999,
        totalProfit := 10, bestTrade := 10, worstTrade := 0 }) ∧
    (∀ (mk : ℕ → ℕ), (getStatistics mk fifoLogs).totalProfit = 50 ∧
      (getStatistics mk fifoLogs).winRate = 100 ∧
      (getStatistics mk fifoLogs).bestTrade = 50) := by
  refine ⟨?_, ?_, ?_⟩
  · intro mk logs
    simp only [getStatistics, List.filter_filter]
    simp only [Bool.and_self]
  · intro mk
    norm_num [getStatistics, sortByTime, insertByTime, statsStep, bump, lastN,
      roundTripLogs]
  · intro mk
    norm_num [getStatistics, sortByTime, insertByTime, statsStep, bump, lastN, fifoLogs]

/- ## C10 — unmatched sells and the 50-entry cap -/

/-- C10: a successful `ask` processed while the FIFO buy queue is empty
leaves the whole statistics accumulator unchanged — no bucket, no win/loss
count, no profit or loss (first conjunct) — and `getTradeLogs` never
returns more than its 50-entry cap for the aggregation to consume (second
conjunct). -/
theorem c10_unmatched_sell_cap :
    (∀ (mk : ℕ → ℕ) (acc : StatsAcc) (log : TradeLog),
      log.side = .ask → acc.buyQueue = [] → statsStep mk acc log = acc) ∧
    (∀ (logs : List TradeLog), (getTradeLogs logs).length ≤ 50) := by
  constructor
  · intro mk acc log h1 h2
    simp [statsStep, h1, h2]
  · intro logs
    simp only [getTradeLogs, List.length_take]
    omega

/-- Witness for C10: a lone successful sell at 110 with an empty queue
changes nothing, and the cap holds on the demo log. -/
theorem c10_unmatched_sell_cap_witness :
    statsStep (fun _ => 0) {} ⟨.ask, 110, 1, 5, "success"⟩ = {} ∧
    (getTradeLogs roundTripLogs).length ≤ 50 := by
  exact ⟨c10_unmatched_sell_cap.1 (fun _ => 0) {} ⟨.ask, 110, 1, 5, "success"⟩ rfl rfl,
    c10_unmatched_sell_cap.2 roundTripLogs⟩

end UpbitBot
